import Mathlib

/-!
# Verification of the Audio Transcriber front-end logic

Shallow embedding of the audio-processing code of the repository:

* `createWavBlob` (src/App.tsx): wraps a raw PCM byte sequence into a WAV
  container; the JavaScript `DataView.setUint16/32` writes wrap their value
  modulo `2^16`/`2^32`, which the embedding makes explicit, and constructing
  an `Int16Array` over an odd-length buffer throws, which the embedding
  renders as `Option`.
* `decode` (src/App.tsx): base64 decoding of the synthesized audio payload.
* `handleFileChange` / `handleProcessAudio` (src/App.tsx): the orchestration
  over the React state fields, with the remote calls and the file reader
  modelled as oracles supplied in a `RunEnv`, and object-URL creation and
  revocation recorded in an event trace.
* `getGenAI` / `generateTranscriptFromAudio` (src/services/geminiService.ts):
  the transcription client, with the provider call modelled as an oracle.

Bytes are `Nat` values below 256; byte sequences are `List Nat`.
-/

/-- Little-endian bytes of a 16-bit write: `DataView.setUint16 (v, true)`
stores `v` modulo `2^16` as two bytes, low byte first. -/
def u16le (v : Nat) : List Nat := [v % 256, v / 256 % 256]

/-- Little-endian bytes of a 32-bit write: `DataView.setUint32 (v, true)`
stores `v` modulo `2^32` as four bytes, low byte first. -/
def u32le (v : Nat) : List Nat :=
  [v % 256, v / 256 % 256, v / 65536 % 256, v / 16777216 % 256]

/-- Value of a little-endian byte sequence. -/
def leNat : List Nat → Nat
  | [] => 0
  | b :: rest => b + 256 * leNat rest

/-- Read the little-endian 16-bit value at byte offset `off`. -/
def readU16LE (bytes : List Nat) (off : Nat) : Nat :=
  leNat ((bytes.drop off).take 2)

/-- Read the little-endian 32-bit value at byte offset `off`. -/
def readU32LE (bytes : List Nat) (off : Nat) : Nat :=
  leNat ((bytes.drop off).take 4)

/-- The 44-byte WAV header written by `createWavBlob` (src/App.tsx lines
38-61): RIFF/WAVE/fmt /data layout with the derived fields computed exactly
as in the source (`blockAlign = numChannels * 16 / 8`,
`byteRate = sampleRate * blockAlign`). The four ASCII tags are written
big-endian in the source (`setUint32 (…, false)`), hence appear here as
their literal byte sequences. -/
def wavHeaderBytes (dataSize sampleRate numChannels : Nat) : List Nat :=
  let blockAlign := numChannels * 16 / 8
  let byteRate := sampleRate * blockAlign
  [0x52, 0x49, 0x46, 0x46] ++ u32le (36 + dataSize) ++
  [0x57, 0x41, 0x56, 0x45] ++
  [0x66, 0x6d, 0x74, 0x20] ++ u32le 16 ++ u16le 1 ++
  u16le numChannels ++ u32le sampleRate ++ u32le byteRate ++
  u16le blockAlign ++ u16le 16 ++
  [0x64, 0x61, 0x74, 0x61] ++ u32le dataSize

/-- Embedding of `createWavBlob` (src/App.tsx lines 30-64). The source first
copies `pcmData` into a fresh buffer and views it as an `Int16Array`; that
construction throws when the byte length is odd (`none` here). Otherwise
`numSamples = byteLength / 2` and `dataSize = numSamples * (16 / 8)`, and the
blob is the 44-byte header followed by the PCM bytes unchanged. -/
def createWavBlob (pcmData : List Nat) (sampleRate numChannels : Nat) :
    Option (List Nat) :=
  if pcmData.length % 2 = 0 then
    some (wavHeaderBytes (pcmData.length / 2 * (16 / 8)) sampleRate numChannels
          ++ pcmData)
  else none

lemma leNat_u32le (v : Nat) (h : v < 4294967296) : leNat (u32le v) = v := by
  simp only [u32le, leNat]
  omega

lemma leNat_u16le (v : Nat) (h : v < 65536) : leNat (u16le v) = v := by
  simp only [u16le, leNat]
  omega

lemma wavHeaderBytes_length (ds sr ch : Nat) :
    (wavHeaderBytes ds sr ch).length = 44 := rfl

lemma createWavBlob_of_even (P : List Nat) (sr ch : Nat)
    (h : P.length % 2 = 0) :
    createWavBlob P sr ch = some (wavHeaderBytes P.length sr ch ++ P) := by
  have hds : P.length / 2 * (16 / 8) = P.length := by omega
  simp [createWavBlob, h, hds]

/-- The standard base64 alphabet of RFC 4648 (§4.1 of the spec): `A`-`Z`,
`a`-`z`, `0`-`9`, `+`, `/`. -/
def b64chars : List Char :=
  "ABCDEFGHIJKLMNOPQRSTUVWXYZabcdefghijklmnopqrstuvwxyz0123456789+/".toList

/-- Character encoding a 6-bit group. -/
def b64enc (n : Nat) : Char := b64chars.getD n 'A'

/-- Alphabet value of a character; `none` outside the base64 alphabet
(padding `=` included: it is handled positionally by the decoder). -/
def b64dec (c : Char) : Option Nat := b64chars.findIdx? (· = c)

/-- Standard RFC 4648 base64 encoding with padding, three input bytes per
four output characters. This is the reference encoder the round-trip claim
compares the repository's decoder against. -/
def b64encode : List Nat → List Char
  | [] => []
  | [a] => [b64enc (a / 4), b64enc (a % 4 * 16), '=', '=']
  | [a, b] => [b64enc (a / 4), b64enc (a % 4 * 16 + b / 16),
               b64enc (b % 16 * 4), '=']
  | a :: b :: c :: rest =>
      b64enc (a / 4) :: b64enc (a % 4 * 16 + b / 16) ::
      b64enc (b % 16 * 4 + c / 64) :: b64enc (c % 64) :: b64encode rest

/-- Decoding of complete four-character base64 groups: padding `=` is legal
only in the last group, as `xx==` (one byte) or `xxx=` (two bytes); any
character outside the alphabet fails. -/
def decodeChunks : List Char → Option (List Nat)
  | [] => some []
  | c1 :: c2 :: c3 :: c4 :: rest =>
      match b64dec c1, b64dec c2 with
      | some v1, some v2 =>
        if c3 = '=' then
          if c4 = '=' ∧ rest = [] then some [v1 * 4 + v2 / 16] else none
        else
          match b64dec c3 with
          | some v3 =>
            if c4 = '=' then
              if rest = [] then
                some [v1 * 4 + v2 / 16, v2 % 16 * 16 + v3 / 4]
              else none
            else
              match b64dec c4 with
              | some v4 =>
                match decodeChunks rest with
                | some t => some ((v1 * 4 + v2 / 16) :: (v2 % 16 * 16 + v3 / 4)
                                  :: (v3 % 4 * 64 + v4) :: t)
                | none => none
              | none => none
          | none => none
      | _, _ => none
  | _ => none

/-- Embedding of `decode` (src/App.tsx lines 19-27). The source calls the
platform routine `atob` and copies the resulting character codes into a
`Uint8Array`; `atob` is not part of the repository, so it is modelled from
the spec (§4.1): standard base64 alphabet, RFC 4648 with padding, failing
on characters outside the alphabet or on an invalid padding length. -/
def decode (s : List Char) : Option (List Nat) :=
  if s.length % 4 = 0 then decodeChunks s else none

lemma b64dec_b64enc (n : Nat) (h : n < 64) : b64dec (b64enc n) = some n := by
  revert n h
  decide

lemma b64enc_ne_pad (n : Nat) (h : n < 64) : b64enc n ≠ '=' := by
  revert n h
  decide

lemma b64encode_length_mod (B : List Nat) : (b64encode B).length % 4 = 0 := by
  induction B using b64encode.induct with
  | case1 => simp [b64encode]
  | case2 a => simp [b64encode]
  | case3 a b => simp [b64encode]
  | case4 a b c rest ih =>
      simp only [b64encode, List.length_cons]
      omega

lemma decodeChunks_b64encode (B : List Nat) (hB : ∀ b ∈ B, b < 256) :
    decodeChunks (b64encode B) = some B := by
  induction B using b64encode.induct with
  | case1 => rfl
  | case2 a =>
      have ha : a < 256 := hB a (by simp)
      have h1 : b64dec (b64enc (a / 4)) = some (a / 4) :=
        b64dec_b64enc _ (by omega)
      have h2 : b64dec (b64enc (a % 4 * 16)) = some (a % 4 * 16) :=
        b64dec_b64enc _ (by omega)
      simp only [b64encode, decodeChunks, h1, h2]
      norm_num
      omega
  | case3 a b =>
      have ha : a < 256 := hB a (by simp)
      have hb : b < 256 := hB b (by simp)
      have h1 : b64dec (b64enc (a / 4)) = some (a / 4) :=
        b64dec_b64enc _ (by omega)
      have h2 : b64dec (b64enc (a % 4 * 16 + b / 16)) =
          some (a % 4 * 16 + b / 16) := b64dec_b64enc _ (by omega)
      have h3 : b64dec (b64enc (b % 16 * 4)) = some (b % 16 * 4) :=
        b64dec_b64enc _ (by omega)
      have hne : b64enc (b % 16 * 4) ≠ '=' := b64enc_ne_pad _ (by omega)
      simp only [b64encode, decodeChunks, h1, h2, h3, if_neg hne]
      norm_num
      constructor
      · omega
      · omega
  | case4 a b c rest ih =>
      have ha : a < 256 := hB a (by simp)
      have hb : b < 256 := hB b (by simp)
      have hc : c < 256 := hB c (by simp)
      have h1 : b64dec (b64enc (a / 4)) = some (a / 4) :=
        b64dec_b64enc _ (by omega)
      have h2 : b64dec (b64enc (a % 4 * 16 + b / 16)) =
          some (a % 4 * 16 + b / 16) := b64dec_b64enc _ (by omega)
      have h3 : b64dec (b64enc (b % 16 * 4 + c / 64)) =
          some (b % 16 * 4 + c / 64) := b64dec_b64enc _ (by omega)
      have h4 : b64dec (b64enc (c % 64)) = some (c % 64) :=
        b64dec_b64enc _ (by omega)
      have hne3 : b64enc (b % 16 * 4 + c / 64) ≠ '=' :=
        b64enc_ne_pad _ (by omega)
      have hne4 : b64enc (c % 64) ≠ '=' :=
        b64enc_ne_pad _ (by omega)
      have ihr : decodeChunks (b64encode rest) = some rest :=
        ih (fun x hx => hB x (by simp [hx]))
      simp only [b64encode, decodeChunks, h1, h2, h3, h4, if_neg hne3,
                 if_neg hne4, ihr]
      refine congrArg some ?_
      refine List.cons_eq_cons.mpr ⟨by omega, ?_⟩
      refine List.cons_eq_cons.mpr ⟨by omega, ?_⟩
      exact List.cons_eq_cons.mpr ⟨by omega, rfl⟩

lemma decode_b64encode (B : List Nat) (hB : ∀ b ∈ B, b < 256) :
    decode (b64encode B) = some B := by
  simp only [decode, b64encode_length_mod, if_pos]
  exact decodeChunks_b64encode B hB

lemma decodeChunks_valid_chars_aux (n : Nat) : ∀ (s : List Char),
    s.length ≤ n → ∀ t, decodeChunks s = some t →
    ∀ c ∈ s, b64dec c ≠ none ∨ c = '=' := by
  induction n with
  | zero =>
      intro s hs t ht c hc
      rw [List.length_eq_zero.mp (Nat.le_zero.mp hs)] at hc
      simp at hc
  | succ k ih =>
      intro s hs t ht c hc
      match s with
      | [] => simp at hc
      | [c1] => simp [decodeChunks] at ht
      | [c1, c2] => simp [decodeChunks] at ht
      | [c1, c2, c3] => simp [decodeChunks] at ht
      | c1 :: c2 :: c3 :: c4 :: rest =>
        cases h1 : b64dec c1 with
        | none => simp [decodeChunks, h1] at ht
        | some v1 =>
        cases h2 : b64dec c2 with
        | none => simp [decodeChunks, h1, h2] at ht
        | some v2 =>
        by_cases h3 : c3 = '='
        · by_cases h4 : c4 = '=' ∧ rest = []
          · rcases h4 with ⟨h4c, h4r⟩
            subst h4r
            simp only [List.mem_cons, List.not_mem_nil, or_false] at hc
            rcases hc with rfl | rfl | rfl | rfl
            · exact Or.inl (by simp [h1])
            · exact Or.inl (by simp [h2])
            · exact Or.inr h3
            · exact Or.inr h4c
          · simp [decodeChunks, h1, h2, h3, h4] at ht
        · cases h3d : b64dec c3 with
          | none => simp [decodeChunks, h1, h2, h3, h3d] at ht
          | some v3 =>
          by_cases h4 : c4 = '='
          · by_cases h5 : rest = []
            · subst h5
              simp only [List.mem_cons, List.not_mem_nil, or_false] at hc
              rcases hc with rfl | rfl | rfl | rfl
              · exact Or.inl (by simp [h1])
              · exact Or.inl (by simp [h2])
              · exact Or.inl (by simp [h3d])
              · exact Or.inr h4
            · simp [decodeChunks, h1, h2, h3, h3d, h4, h5] at ht
          · cases h4d : b64dec c4 with
            | none => simp [decodeChunks, h1, h2, h3, h3d, h4, h4d] at ht
            | some v4 =>
            cases hr : decodeChunks rest with
            | none => simp [decodeChunks, h1, h2, h3, h3d, h4, h4d, hr] at ht
            | some t2 =>
              simp only [List.mem_cons] at hc
              rcases hc with rfl | rfl | rfl | rfl | hc
              · exact Or.inl (by simp [h1])
              · exact Or.inl (by simp [h2])
              · exact Or.inl (by simp [h3d])
              · exact Or.inl (by simp [h4d])
              · exact ih rest (by simp at hs; omega) t2 hr c hc

lemma decode_invalid_char (s : List Char) (c : Char) (hc : c ∈ s)
    (hdec : b64dec c = none) (hpad : c ≠ '=') : decode s = none := by
  unfold decode
  split
  · cases hr : decodeChunks s with
    | none => rfl
    | some t =>
        rcases decodeChunks_valid_chars_aux s.length s le_rfl t hr c hc with
          h | h
        · exact absurd hdec h
        · exact absurd h hpad
  · rfl

lemma decode_invalid_length (s : List Char) (h : s.length % 4 ≠ 0) :
    decode s = none := by
  simp [decode, h]

example : decode (b64encode [1, 0, 2, 0]) = some [1, 0, 2, 0] := by decide
example : b64encode [1, 0, 2, 0] =
    ['A', 'Q', 'A', 'C', 'A', 'A', '=', '='] := by decide
example : decode ['A', 'Q', 'A'] = none := by decide
example : decode ['*', 'Q', 'A', 'C'] = none := by decide

/-- The React state fields of the `App` component (src/App.tsx lines
135-141). Files and object URLs are opaque handles, modelled as `Nat`. -/
structure AppState where
  inputAudioFile : Option Nat
  inputAudioUrl : Option Nat
  transcript : String
  outputAudioUrl : Option Nat
  isLoading : Bool
  progressMessage : String
  error : Option String
deriving DecidableEq, Repr

/-- Observable side effects of a handler: object-URL lifecycle
(`URL.createObjectURL` / `URL.revokeObjectURL`) and remote service calls. -/
inductive AppEvent where
  | created (u : Nat)
  | revoked (u : Nat)
  | calledTranscribe
  | calledSynthesize
deriving DecidableEq, Repr

/-- Outcomes of the external steps of one `handleProcessAudio` run, supplied
as oracles: the file read (`fileToBase64`, which can reject via the reader's
onerror), the transcription call and the synthesis call (each can reject with
an error message; the synthesis call can also resolve with no audio payload,
`Option.none`, matching `generateSpeechFromText` returning `undefined`). -/
structure RunEnv where
  fileReadResult : Except String (String × String)
  transcriptResult : Except String String
  speechResult : Except String (Option (List Char))
deriving Repr

/-- Embedding of `handleFileChange` (src/App.tsx lines 143-157): revoke the
previous input URL, then the previous output URL, store the new file, create
a fresh object URL (`fresh`) for it, and clear transcript, output URL and
error. Returns the new state and the emitted events in order. -/
def handleFileChange (file fresh : Nat) (s : AppState) :
    AppState × List AppEvent :=
  let ev1 := match s.inputAudioUrl with
    | some u => [AppEvent.revoked u]
    | none => []
  let ev2 := match s.outputAudioUrl with
    | some u => [AppEvent.revoked u]
    | none => []
  ({ s with inputAudioFile := some file, inputAudioUrl := some fresh,
            transcript := "", outputAudioUrl := none, error := none },
   ev1 ++ ev2 ++ [AppEvent.created fresh])

/-- State update of the `catch` block of `handleProcessAudio` (src/App.tsx
lines 188-191) followed by its `finally` block (lines 192-195). -/
def catchFinally (msg : String) (s : AppState) : AppState :=
  { s with error := some ("Processing failed: " ++ msg),
           isLoading := false, progressMessage := "" }

/-- State update of the `finally` block alone (src/App.tsx lines 192-195). -/
def finallyBlock (s : AppState) : AppState :=
  { s with isLoading := false, progressMessage := "" }

/-- Error message modelled for the exception `atob` throws on a malformed
base64 payload (the exact platform text is irrelevant to the claims). -/
def atobErrorMsg : String := "InvalidCharacterError"

/-- Error message modelled for the exception the `Int16Array` constructor
throws on an odd-length buffer inside `createWavBlob`. -/
def int16ErrorMsg : String := "buffer length is not a multiple of 2"

/-- Embedding of `handleProcessAudio` (src/App.tsx lines 160-196). Returns
immediately when no input file is selected; otherwise clears error,
transcript and output URL, runs file read, transcription, synthesis, base64
decoding and WAV encoding in order, stores the transcript as soon as it
arrives, and on success creates a fresh object URL (`fresh`) for the WAV
blob. The guard `if (synthesizedAudioData)` at line 178 is a JavaScript
truthiness check, so both an absent payload (`none`) and an empty one
(`some []`, the empty string) take the throwing branch. Any failure is
caught, setting a single error message; the `finally` block always clears
the loading flag and the progress message. -/
def handleProcessAudio (env : RunEnv) (fresh : Nat) (s : AppState) :
    AppState × List AppEvent :=
  match s.inputAudioFile with
  | none => (s, [])
  | some _ =>
    let s1 := { s with isLoading := true, error := none, transcript := "",
                       outputAudioUrl := none,
                       progressMessage := "Reading audio file..." }
    match env.fileReadResult with
    | .error e => (catchFinally e s1, [])
    | .ok _ =>
      let s2 := { s1 with progressMessage := "Generating transcript..." }
      match env.transcriptResult with
      | .error e => (catchFinally e s2, [AppEvent.calledTranscribe])
      | .ok t =>
        let s3 := { s2 with transcript := t,
                            progressMessage := "Synthesizing audio..." }
        match env.speechResult with
        | .error e =>
            (catchFinally e s3,
             [AppEvent.calledTranscribe, AppEvent.calledSynthesize])
        | .ok none =>
            (catchFinally "Failed to generate audio data." s3,
             [AppEvent.calledTranscribe, AppEvent.calledSynthesize])
        | .ok (some audioB64) =>
          if audioB64 = [] then
            (catchFinally "Failed to generate audio data." s3,
             [AppEvent.calledTranscribe, AppEvent.calledSynthesize])
          else
          let s4 := { s3 with progressMessage := "Processing audio..." }
          match decode audioB64 with
          | none =>
              (catchFinally atobErrorMsg s4,
               [AppEvent.calledTranscribe, AppEvent.calledSynthesize])
          | some pcmData =>
            match createWavBlob pcmData 24000 1 with
            | none =>
                (catchFinally int16ErrorMsg s4,
                 [AppEvent.calledTranscribe, AppEvent.calledSynthesize])
            | some _ =>
                (finallyBlock { s4 with outputAudioUrl := some fresh },
                 [AppEvent.calledTranscribe, AppEvent.calledSynthesize,
                  AppEvent.created fresh])

/-- Whether a run with these oracle outcomes fails at some stage (file read,
transcription, synthesis, absent or empty audio payload — both falsy under
the source's truthiness guard — base64 decoding, or WAV encoding). -/
def runFails (env : RunEnv) : Bool :=
  match env.fileReadResult with
  | .error _ => true
  | .ok _ =>
    match env.transcriptResult with
    | .error _ => true
    | .ok _ =>
      match env.speechResult with
      | .error _ => true
      | .ok none => true
      | .ok (some audioB64) =>
        if audioB64 = [] then true
        else
          match decode audioB64 with
          | none => true
          | some pcmData => (createWavBlob pcmData 24000 1).isNone

/-- Object URLs currently referenced by the state. -/
def heldUrls (s : AppState) : List Nat :=
  s.inputAudioUrl.toList ++ s.outputAudioUrl.toList

/-- URLs with a creation event in the trace. -/
def createdUrls (evs : List AppEvent) : List Nat :=
  evs.filterMap fun e => match e with
    | AppEvent.created u => some u
    | _ => none

/-- URLs with a revocation event in the trace. -/
def revokedUrls (evs : List AppEvent) : List Nat :=
  evs.filterMap fun e => match e with
    | AppEvent.revoked u => some u
    | _ => none

/-- Fold of `handleFileChange` over a sequence of selections (file, fresh
URL), accumulating the event trace. -/
def selectRuns (s : AppState) : List (Nat × Nat) → AppState × List AppEvent
  | [] => (s, [])
  | (file, fresh) :: rest =>
      let r1 := handleFileChange file fresh s
      let r2 := selectRuns r1.1 rest
      (r2.1, r1.2 ++ r2.2)

/-- A provider response, exposing only what `generateTranscriptFromAudio`
reads from it: the `text` accessor, which is absent when the response
carries no text. -/
structure ProviderResponse where
  text : Option String
deriving DecidableEq, Repr

/-- Environment of the transcription client: the `API_KEY` process
environment variable (`none` when unset) and the outcome of the provider
call (`generateContent`), which can reject with an error message. -/
structure GenAIEnv where
  apiKey : Option String
  generateContentResult : Except String ProviderResponse
deriving Repr

/-- Embedding of `getGenAI` (src/services/geminiService.ts lines 3-8):
throws when `process.env.API_KEY` is falsy, i.e. unset or the empty
string. -/
def getGenAI (apiKey : Option String) : Except String Unit :=
  if apiKey.getD "" = "" then
    .error "API_KEY environment variable not set"
  else .ok ()

/-- Embedding of `generateTranscriptFromAudio` (src/services/geminiService.ts
lines 10-29): check the credential, then perform the provider call and
return `response.text` unchanged. The second component records whether the
network call was made. -/
def generateTranscriptFromAudio (env : GenAIEnv) :
    Except String (Option String) × Bool :=
  match getGenAI env.apiKey with
  | .error e => (.error e, false)
  | .ok _ =>
    match env.generateContentResult with
    | .error e => (.error e, true)
    | .ok resp => (.ok resp.text, true)

example : createWavBlob [1, 0, 2, 0] 24000 1 =
    some [0x52, 0x49, 0x46, 0x46, 40, 0, 0, 0,
          0x57, 0x41, 0x56, 0x45, 0x66, 0x6d, 0x74, 0x20,
          16, 0, 0, 0, 1, 0, 1, 0,
          0xc0, 0x5d, 0, 0, 0x80, 0xbb, 0, 0,
          2, 0, 16, 0, 0x64, 0x61, 0x74, 0x61,
          4, 0, 0, 0, 1, 0, 2, 0] := by decide

lemma wavBytes_length (ds sr ch : Nat) (P : List Nat) :
    (wavHeaderBytes ds sr ch ++ P).length = 44 + P.length := by
  simp [List.length_append, wavHeaderBytes_length]

lemma wavBytes_tag_riff (ds sr ch : Nat) (P : List Nat) :
    (wavHeaderBytes ds sr ch ++ P).take 4 = [0x52, 0x49, 0x46, 0x46] := rfl

lemma wavBytes_tag_wave (ds sr ch : Nat) (P : List Nat) :
    ((wavHeaderBytes ds sr ch ++ P).drop 8).take 4 =
      [0x57, 0x41, 0x56, 0x45] := rfl

lemma wavBytes_tag_fmt (ds sr ch : Nat) (P : List Nat) :
    ((wavHeaderBytes ds sr ch ++ P).drop 12).take 4 =
      [0x66, 0x6d, 0x74, 0x20] := rfl

lemma wavBytes_tag_data (ds sr ch : Nat) (P : List Nat) :
    ((wavHeaderBytes ds sr ch ++ P).drop 36).take 4 =
      [0x64, 0x61, 0x74, 0x61] := rfl

lemma wavBytes_payload (ds sr ch : Nat) (P : List Nat) :
    (wavHeaderBytes ds sr ch ++ P).drop 44 = P := rfl

lemma wavBytes_riffSize (ds sr ch : Nat) (P : List Nat)
    (h : 36 + ds < 4294967296) :
    readU32LE (wavHeaderBytes ds sr ch ++ P) 4 = 36 + ds := by
  show leNat (((wavHeaderBytes ds sr ch ++ P).drop 4).take 4) = _
  have he : ((wavHeaderBytes ds sr ch ++ P).drop 4).take 4 =
      u32le (36 + ds) := rfl
  rw [he, leNat_u32le _ h]

lemma wavBytes_fmtSize (ds sr ch : Nat) (P : List Nat) :
    readU32LE (wavHeaderBytes ds sr ch ++ P) 16 = 16 := by
  show leNat (((wavHeaderBytes ds sr ch ++ P).drop 16).take 4) = _
  have he : ((wavHeaderBytes ds sr ch ++ P).drop 16).take 4 =
      u32le 16 := rfl
  rw [he, leNat_u32le 16 (by norm_num)]

lemma wavBytes_formatTag (ds sr ch : Nat) (P : List Nat) :
    readU16LE (wavHeaderBytes ds sr ch ++ P) 20 = 1 := by
  show leNat (((wavHeaderBytes ds sr ch ++ P).drop 20).take 2) = _
  have he : ((wavHeaderBytes ds sr ch ++ P).drop 20).take 2 =
      u16le 1 := rfl
  rw [he, leNat_u16le 1 (by norm_num)]

lemma wavBytes_channels (ds sr ch : Nat) (P : List Nat) (h : ch < 65536) :
    readU16LE (wavHeaderBytes ds sr ch ++ P) 22 = ch := by
  show leNat (((wavHeaderBytes ds sr ch ++ P).drop 22).take 2) = _
  have he : ((wavHeaderBytes ds sr ch ++ P).drop 22).take 2 =
      u16le ch := rfl
  rw [he, leNat_u16le ch h]

lemma wavBytes_sampleRate (ds sr ch : Nat) (P : List Nat)
    (h : sr < 4294967296) :
    readU32LE (wavHeaderBytes ds sr ch ++ P) 24 = sr := by
  show leNat (((wavHeaderBytes ds sr ch ++ P).drop 24).take 4) = _
  have he : ((wavHeaderBytes ds sr ch ++ P).drop 24).take 4 =
      u32le sr := rfl
  rw [he, leNat_u32le sr h]

lemma wavBytes_byteRate (ds sr ch : Nat) (P : List Nat)
    (h : sr * ch * 2 < 4294967296) :
    readU32LE (wavHeaderBytes ds sr ch ++ P) 28 = sr * ch * 2 := by
  show leNat (((wavHeaderBytes ds sr ch ++ P).drop 28).take 4) = _
  have he : ((wavHeaderBytes ds sr ch ++ P).drop 28).take 4 =
      u32le (sr * (ch * 16 / 8)) := rfl
  have ha : sr * (ch * 16 / 8) = sr * ch * 2 := by
    have hc : ch * 16 / 8 = ch * 2 := by omega
    rw [hc, Nat.mul_assoc]
  rw [he, ha, leNat_u32le _ h]

lemma wavBytes_blockAlign (ds sr ch : Nat) (P : List Nat)
    (h : ch * 2 < 65536) :
    readU16LE (wavHeaderBytes ds sr ch ++ P) 32 = ch * 2 := by
  show leNat (((wavHeaderBytes ds sr ch ++ P).drop 32).take 2) = _
  have he : ((wavHeaderBytes ds sr ch ++ P).drop 32).take 2 =
      u16le (ch * 16 / 8) := rfl
  have ha : ch * 16 / 8 = ch * 2 := by omega
  rw [he, ha, leNat_u16le _ h]

lemma wavBytes_bitsPerSample (ds sr ch : Nat) (P : List Nat) :
    readU16LE (wavHeaderBytes ds sr ch ++ P) 34 = 16 := by
  show leNat (((wavHeaderBytes ds sr ch ++ P).drop 34).take 2) = _
  have he : ((wavHeaderBytes ds sr ch ++ P).drop 34).take 2 =
      u16le 16 := rfl
  rw [he, leNat_u16le 16 (by norm_num)]

lemma wavBytes_dataSize (ds sr ch : Nat) (P : List Nat)
    (h : ds < 4294967296) :
    readU32LE (wavHeaderBytes ds sr ch ++ P) 40 = ds := by
  show leNat (((wavHeaderBytes ds sr ch ++ P).drop 40).take 4) = _
  have he : ((wavHeaderBytes ds sr ch ++ P).drop 40).take 4 =
      u32le ds := rfl
  rw [he, leNat_u32le _ h]

/-- C1: for every even-length PCM byte sequence `P` and every representable
sample rate and channel count (the header fields are 16- and 32-bit, so the
channel count, the byte rate and `36 + len P` must fit their fields),
`createWavBlob` produces `44 + len P` bytes whose header matches the
canonical WAV layout exactly — "RIFF", chunk size `36 + len P`, "WAVE",
"fmt ", chunk size 16, format tag 1, the channel count, the sample rate,
byte rate `sr * ch * 2`, block align `ch * 2`, 16 bits per sample, "data",
data size `len P` — and whose bytes from offset 44 on are `P` unchanged. -/
theorem createWavBlob_header_layout (P : List Nat) (sr ch : Nat)
    (h2 : P.length % 2 = 0) (hlen : 36 + P.length < 4294967296)
    (hch : ch * 2 < 65536) (hsr : sr < 4294967296)
    (hbr : sr * ch * 2 < 4294967296) :
    ∃ out, createWavBlob P sr ch = some out
      ∧ out.length = 44 + P.length
      ∧ out.take 4 = [0x52, 0x49, 0x46, 0x46]
      ∧ readU32LE out 4 = 36 + P.length
      ∧ (out.drop 8).take 4 = [0x57, 0x41, 0x56, 0x45]
      ∧ (out.drop 12).take 4 = [0x66, 0x6d, 0x74, 0x20]
      ∧ readU32LE out 16 = 16
      ∧ readU16LE out 20 = 1
      ∧ readU16LE out 22 = ch
      ∧ readU32LE out 24 = sr
      ∧ readU32LE out 28 = sr * ch * 2
      ∧ readU16LE out 32 = ch * 2
      ∧ readU16LE out 34 = 16
      ∧ (out.drop 36).take 4 = [0x64, 0x61, 0x74, 0x61]
      ∧ readU32LE out 40 = P.length
      ∧ out.drop 44 = P :=
  ⟨wavHeaderBytes P.length sr ch ++ P, createWavBlob_of_even P sr ch h2,
   wavBytes_length P.length sr ch P,
   wavBytes_tag_riff P.length sr ch P,
   wavBytes_riffSize P.length sr ch P hlen,
   wavBytes_tag_wave P.length sr ch P,
   wavBytes_tag_fmt P.length sr ch P,
   wavBytes_fmtSize P.length sr ch P,
   wavBytes_formatTag P.length sr ch P,
   wavBytes_channels P.length sr ch P (by omega),
   wavBytes_sampleRate P.length sr ch P hsr,
   wavBytes_byteRate P.length sr ch P hbr,
   wavBytes_blockAlign P.length sr ch P hch,
   wavBytes_bitsPerSample P.length sr ch P,
   wavBytes_tag_data P.length sr ch P,
   wavBytes_dataSize P.length sr ch P (by omega),
   wavBytes_payload P.length sr ch P⟩

/-- Witness for C1 at the claim's own example: PCM `[0x01, 0x00, 0x02, 0x00]`,
sample rate 24000, one channel. -/
theorem createWavBlob_header_layout_witness :
    ∃ out, createWavBlob [1, 0, 2, 0] 24000 1 = some out
      ∧ out.length = 44 + 4
      ∧ out.take 4 = [0x52, 0x49, 0x46, 0x46]
      ∧ readU32LE out 4 = 36 + 4
      ∧ (out.drop 8).take 4 = [0x57, 0x41, 0x56, 0x45]
      ∧ (out.drop 12).take 4 = [0x66, 0x6d, 0x74, 0x20]
      ∧ readU32LE out 16 = 16
      ∧ readU16LE out 20 = 1
      ∧ readU16LE out 22 = 1
      ∧ readU32LE out 24 = 24000
      ∧ readU32LE out 28 = 24000 * 1 * 2
      ∧ readU16LE out 32 = 1 * 2
      ∧ readU16LE out 34 = 16
      ∧ (out.drop 36).take 4 = [0x64, 0x61, 0x74, 0x61]
      ∧ readU32LE out 40 = 4
      ∧ out.drop 44 = [1, 0, 2, 0] :=
  createWavBlob_header_layout [1, 0, 2, 0] 24000 1 (by decide) (by decide)
    (by decide) (by decide) (by decide)

/-- C5: encoding a zero-length PCM sequence succeeds for every sample rate
and channel count, producing exactly 44 bytes with the RIFF/WAVE/fmt /data
tags in place, RIFF chunk size 36 (bytes 4-7) and data size 0
(bytes 40-43). -/
theorem createWavBlob_empty (sr ch : Nat) :
    ∃ out, createWavBlob [] sr ch = some out
      ∧ out.length = 44
      ∧ out.take 4 = [0x52, 0x49, 0x46, 0x46]
      ∧ readU32LE out 4 = 36
      ∧ (out.drop 8).take 4 = [0x57, 0x41, 0x56, 0x45]
      ∧ (out.drop 12).take 4 = [0x66, 0x6d, 0x74, 0x20]
      ∧ readU32LE out 16 = 16
      ∧ readU16LE out 20 = 1
      ∧ (out.drop 36).take 4 = [0x64, 0x61, 0x74, 0x61]
      ∧ readU32LE out 40 = 0 :=
  ⟨wavHeaderBytes 0 sr ch, rfl, rfl, rfl, rfl, rfl, rfl, rfl, rfl, rfl, rfl⟩

/-- C6: the header of every container built by `createWavBlob` decodes back
to the sample rate (bytes 24-27), the channel count (bytes 22-23) and
16 bits per sample (bytes 34-35) that were passed in, for every even-length
payload and every sample rate and channel count that fit their 32- and
16-bit header fields. -/
theorem createWavBlob_header_roundtrip (P : List Nat) (sr ch : Nat)
    (h2 : P.length % 2 = 0) (hsr : sr < 4294967296) (hch : ch < 65536) :
    ∃ out, createWavBlob P sr ch = some out
      ∧ readU32LE out 24 = sr
      ∧ readU16LE out 22 = ch
      ∧ readU16LE out 34 = 16 :=
  ⟨wavHeaderBytes P.length sr ch ++ P, createWavBlob_of_even P sr ch h2,
   wavBytes_sampleRate P.length sr ch P hsr,
   wavBytes_channels P.length sr ch P hch,
   wavBytes_bitsPerSample P.length sr ch P⟩

/-- Witness for C6 at sample rate 24000, one channel, payload
`[0x01, 0x00]`. -/
theorem createWavBlob_header_roundtrip_witness :
    ∃ out, createWavBlob [1, 0] 24000 1 = some out
      ∧ readU32LE out 24 = 24000
      ∧ readU16LE out 22 = 1
      ∧ readU16LE out 34 = 16 :=
  createWavBlob_header_roundtrip [1, 0] 24000 1 (by decide) (by decide)
    (by decide)

/-- C9: `createWavBlob` fails on every odd-length PCM sequence (the
`Int16Array` view over an odd-length buffer throws), and under the spec's
precondition that the payload length is a multiple of
`bytesPerSample * numChannels = 2 * ch` the failure branch is unreachable:
the encoder always succeeds. -/
theorem createWavBlob_odd_length_fails :
    (∀ (P : List Nat) (sr ch : Nat), P.length % 2 = 1 →
      createWavBlob P sr ch = none)
    ∧ (∀ (P : List Nat) (sr ch : Nat), (2 * ch) ∣ P.length →
      (createWavBlob P sr ch).isSome = true) := by
  constructor
  · intro P sr ch h
    simp only [createWavBlob]
    rw [if_neg (by omega)]
  · intro P sr ch h
    obtain ⟨k, hk⟩ := h
    have h2 : P.length % 2 = 0 := by
      rw [hk, Nat.mul_assoc, Nat.mul_mod_right]
    simp [createWavBlob, h2]

/-- Witness for C9: the singleton payload `[0x01]` is rejected, while the
claim's example payload of four bytes with one channel is accepted. -/
theorem createWavBlob_odd_length_fails_witness :
    createWavBlob [1] 24000 1 = none
    ∧ (createWavBlob [1, 0, 2, 0] 24000 1).isSome = true :=
  ⟨createWavBlob_odd_length_fails.1 [1] 24000 1 (by decide),
   createWavBlob_odd_length_fails.2 [1, 0, 2, 0] 24000 1 (by decide)⟩

lemma handleFileChange_events (f fr : Nat) (s : AppState) :
    (handleFileChange f fr s).2 =
      (heldUrls s).map AppEvent.revoked ++ [AppEvent.created fr] := by
  cases h1 : s.inputAudioUrl <;> cases h2 : s.outputAudioUrl <;>
    simp [handleFileChange, heldUrls, h1, h2]

lemma handleFileChange_created (f fr : Nat) (s : AppState) :
    createdUrls (handleFileChange f fr s).2 = [fr] := by
  cases h1 : s.inputAudioUrl <;> cases h2 : s.outputAudioUrl <;>
    simp [handleFileChange, createdUrls, h1, h2]

lemma handleFileChange_revoked (f fr : Nat) (s : AppState) :
    revokedUrls (handleFileChange f fr s).2 = heldUrls s := by
  cases h1 : s.inputAudioUrl <;> cases h2 : s.outputAudioUrl <;>
    simp [handleFileChange, revokedUrls, heldUrls, h1, h2]

lemma handleFileChange_held (f fr : Nat) (s : AppState) :
    heldUrls (handleFileChange f fr s).1 = [fr] := by
  simp [handleFileChange, heldUrls]

lemma selectRuns_cons (f fr : Nat) (rest : List (Nat × Nat)) (s : AppState) :
    selectRuns s ((f, fr) :: rest) =
      ((selectRuns (handleFileChange f fr s).1 rest).1,
       (handleFileChange f fr s).2 ++
         (selectRuns (handleFileChange f fr s).1 rest).2) := rfl

lemma selectRuns_no_leak_aux (runs : List (Nat × Nat)) :
    ∀ (s : AppState) (evs : List AppEvent),
    (∀ u ∈ createdUrls evs, u ∈ revokedUrls evs ∨ u ∈ heldUrls s) →
    ∀ u ∈ createdUrls (evs ++ (selectRuns s runs).2),
      u ∈ revokedUrls (evs ++ (selectRuns s runs).2) ∨
        u ∈ heldUrls (selectRuns s runs).1 := by
  induction runs with
  | nil =>
      intro s evs h u hu
      simpa [selectRuns] using h u (by simpa [selectRuns] using hu)
  | cons p rest ih =>
      obtain ⟨f, fr⟩ := p
      intro s evs h u hu
      rw [selectRuns_cons] at hu ⊢
      rw [← List.append_assoc] at hu ⊢
      refine ih (handleFileChange f fr s).1
        (evs ++ (handleFileChange f fr s).2) ?_ u hu
      intro v hv
      simp only [createdUrls, revokedUrls, List.filterMap_append,
        List.mem_append] at hv ⊢
      rcases hv with hv | hv
      · rcases h v hv with hr | hh
        · exact Or.inl (Or.inl hr)
        · refine Or.inl (Or.inr ?_)
          have := handleFileChange_revoked f fr s
          simp only [revokedUrls] at this
          rw [this]
          exact hh
      · refine Or.inr ?_
        have hc := handleFileChange_created f fr s
        simp only [createdUrls] at hc
        rw [hc] at hv
        rw [handleFileChange_held]
        simpa using hv

/-- C4 (amended): `handleFileChange` revokes every handle it supersedes
before creating the new one — its event trace is exactly the revocations of
the previously held input and output URLs followed by the creation of the
fresh one — and across any number of sequential file selections every
created handle is either revoked or still held at the end (no unrevoked
superseded handle remains). The reprocessing path (`handleProcessAudio`)
does not enjoy this: see the counterexample. -/
theorem fileChange_releases_superseded :
    (∀ (f fr : Nat) (s : AppState),
      (handleFileChange f fr s).2 =
        (heldUrls s).map AppEvent.revoked ++ [AppEvent.created fr])
    ∧ (∀ (runs : List (Nat × Nat)) (s : AppState),
      ∀ u ∈ createdUrls (selectRuns s runs).2,
        u ∈ revokedUrls (selectRuns s runs).2 ∨
          u ∈ heldUrls (selectRuns s runs).1) := by
  refine ⟨handleFileChange_events, ?_⟩
  intro runs s u hu
  have h := selectRuns_no_leak_aux runs s []
    (by simp [createdUrls]) u (by simpa using hu)
  simpa using h

/-- Witness for C4 (amended) after two sequential selections from a clean
state: the first fresh handle 5 is revoked or still held at the end. -/
theorem fileChange_releases_superseded_witness :
    5 ∈ revokedUrls (selectRuns ⟨none, none, "", none, false, "", none⟩
          [(0, 5), (1, 6)]).2 ∨
      5 ∈ heldUrls (selectRuns ⟨none, none, "", none, false, "", none⟩
          [(0, 5), (1, 6)]).1 :=
  fileChange_releases_superseded.2 [(0, 5), (1, 6)]
    ⟨none, none, "", none, false, "", none⟩ 5 (by decide)

/-- C4 counterexample: pressing process twice on the same selected file (two
sequential runs) creates output handle 10 in the first run, supersedes it
with handle 11 in the second, and never emits a revocation for 10 — the
claim that every superseded handle is released first is false on the
reprocessing path. -/
theorem outputUrl_leak_on_reprocess :
    (let env : RunEnv :=
      ⟨.ok ("d", "audio/mpeg"), .ok "hi",
       .ok (some ['A', 'Q', 'A', 'C', 'A', 'A', '=', '='])⟩ ;
     let s0 : AppState := ⟨some 0, some 1, "", none, false, "", none⟩ ;
     let r1 := handleProcessAudio env 10 s0 ;
     let r2 := handleProcessAudio env 11 r1.1 ;
     AppEvent.created 10 ∈ r1.2 ∧ r1.1.outputAudioUrl = some 10
       ∧ r2.1.outputAudioUrl = some 11
       ∧ AppEvent.revoked 10 ∉ r1.2 ++ r2.2) := by decide

/-- C10: invoking `handleProcessAudio` with no input audio file selected is
a no-op: the state is returned unchanged (transcript, error, output URL,
loading flag and progress message keep their prior values) and no event is
emitted — in particular no remote call is made and no object URL is
created. -/
theorem processAudio_no_file (env : RunEnv) (fresh : Nat) (s : AppState)
    (h : s.inputAudioFile = none) :
    handleProcessAudio env fresh s = (s, []) := by
  simp [handleProcessAudio, h]

/-- Witness for C10 on a state with a stale transcript and error but no
selected file. -/
theorem processAudio_no_file_witness :
    handleProcessAudio ⟨.ok ("d", "m"), .ok "t", .ok none⟩ 9
        ⟨none, none, "old", some 3, false, "p", some "e"⟩ =
      (⟨none, none, "old", some 3, false, "p", some "e"⟩, []) :=
  processAudio_no_file ⟨.ok ("d", "m"), .ok "t", .ok none⟩ 9
    ⟨none, none, "old", some 3, false, "p", some "e"⟩ rfl

/-- C2: when the synthesis call resolves with no audio payload, the run ends
failed with the fixed audio-generation message, the loading flag is cleared,
no output audio URL is set, and the transcript produced earlier in the same
run remains set and unmodified; a transport failure of the synthesis call
instead surfaces the provider's own message, so the two outcomes are
distinguishable. -/
theorem noAudio_fails_keeps_transcript (s : AppState) (env : RunEnv)
    (fresh : Nat) (d : String × String) (t : String)
    (hfile : s.inputAudioFile.isSome = true)
    (hread : env.fileReadResult = .ok d)
    (htr : env.transcriptResult = .ok t)
    (hsp : env.speechResult = .ok none) :
    ((handleProcessAudio env fresh s).1.error =
        some "Processing failed: Failed to generate audio data."
      ∧ (handleProcessAudio env fresh s).1.transcript = t
      ∧ (handleProcessAudio env fresh s).1.isLoading = false
      ∧ (handleProcessAudio env fresh s).1.outputAudioUrl = none)
    ∧ (∀ (env2 : RunEnv) (m : String),
        env2.fileReadResult = .ok d → env2.transcriptResult = .ok t →
        env2.speechResult = .error m →
        (handleProcessAudio env2 fresh s).1.error =
          some ("Processing failed: " ++ m)
        ∧ (handleProcessAudio env2 fresh s).1.transcript = t) := by
  obtain ⟨f, hf⟩ := Option.isSome_iff_exists.mp hfile
  constructor
  · simp [handleProcessAudio, hf, hread, htr, hsp, catchFinally]
  · intro env2 m h1 h2 h3
    simp [handleProcessAudio, hf, h1, h2, h3, catchFinally]

/-- Witness for C2 on a concrete run whose transcription yields "hello" and
whose synthesis resolves without audio. -/
theorem noAudio_fails_keeps_transcript_witness :
    ((handleProcessAudio ⟨.ok ("d", "m"), .ok "hello", .ok none⟩ 7
        ⟨some 0, some 1, "", none, false, "", none⟩).1.error =
      some "Processing failed: Failed to generate audio data."
    ∧ (handleProcessAudio ⟨.ok ("d", "m"), .ok "hello", .ok none⟩ 7
        ⟨some 0, some 1, "", none, false, "", none⟩).1.transcript = "hello"
    ∧ (handleProcessAudio ⟨.ok ("d", "m"), .ok "hello", .ok none⟩ 7
        ⟨some 0, some 1, "", none, false, "", none⟩).1.isLoading = false
    ∧ (handleProcessAudio ⟨.ok ("d", "m"), .ok "hello", .ok none⟩ 7
        ⟨some 0, some 1, "", none, false, "", none⟩).1.outputAudioUrl
        = none) :=
  (noAudio_fails_keeps_transcript
    ⟨some 0, some 1, "", none, false, "", none⟩
    ⟨.ok ("d", "m"), .ok "hello", .ok none⟩ 7 ("d", "m") "hello"
    rfl rfl rfl rfl).1

/-- C3 counterexample: a run that fails at the synthesis stage (no audio
payload) sets an error — the run failed — yet the transcript produced by
that same failed run ("hello") remains set, so the claim that no partial
result of a failed run is retained is false. -/
theorem failed_run_keeps_partial_transcript :
    (((handleProcessAudio ⟨.ok ("d", "m"), .ok "hello", .ok none⟩ 7
        ⟨some 0, some 1, "", none, false, "", none⟩).1.error).isSome = true)
    ∧ (handleProcessAudio ⟨.ok ("d", "m"), .ok "hello", .ok none⟩ 7
        ⟨some 0, some 1, "", none, false, "", none⟩).1.transcript
        = "hello" := by decide

/-- C3 (amended): every failing run ends with a single error message set,
the loading flag and progress message cleared, and no output audio URL from
the failed run; the transcript is cleared when the failure occurs at or
before transcription, but a transcript produced before a later failing
stage remains set (see the counterexample). -/
theorem processAudio_failure_cleanup (env : RunEnv) (fresh : Nat)
    (s : AppState) (hfile : s.inputAudioFile.isSome = true)
    (hfail : runFails env = true) :
    ((handleProcessAudio env fresh s).1.error).isSome = true
    ∧ (handleProcessAudio env fresh s).1.isLoading = false
    ∧ (handleProcessAudio env fresh s).1.progressMessage = ""
    ∧ (handleProcessAudio env fresh s).1.outputAudioUrl = none
    ∧ (∀ e, env.fileReadResult = .error e →
        (handleProcessAudio env fresh s).1.transcript = "")
    ∧ (∀ e, env.transcriptResult = .error e →
        (handleProcessAudio env fresh s).1.transcript = "") := by
  obtain ⟨f, hf⟩ := Option.isSome_iff_exists.mp hfile
  cases hread : env.fileReadResult with
  | error e =>
      refine ⟨?_, ?_, ?_, ?_, ?_, ?_⟩ <;>
        simp [handleProcessAudio, hf, hread, catchFinally]
  | ok d =>
    cases htr : env.transcriptResult with
    | error e =>
        refine ⟨?_, ?_, ?_, ?_, ?_, ?_⟩ <;>
          simp [handleProcessAudio, hf, hread, htr, catchFinally]
    | ok t =>
      cases hsp : env.speechResult with
      | error e =>
          refine ⟨?_, ?_, ?_, ?_, ?_, ?_⟩ <;>
            simp [handleProcessAudio, hf, hread, htr, hsp, catchFinally]
      | ok payload =>
        cases payload with
        | none =>
            refine ⟨?_, ?_, ?_, ?_, ?_, ?_⟩ <;>
              simp [handleProcessAudio, hf, hread, htr, hsp, catchFinally]
        | some b64 =>
          by_cases hb : b64 = []
          · refine ⟨?_, ?_, ?_, ?_, ?_, ?_⟩ <;>
              simp [handleProcessAudio, hf, hread, htr, hsp, hb, catchFinally]
          · cases hdec : decode b64 with
            | none =>
                refine ⟨?_, ?_, ?_, ?_, ?_, ?_⟩ <;>
                  simp [handleProcessAudio, hf, hread, htr, hsp, hb, hdec,
                        catchFinally]
            | some pcm =>
              cases hwav : createWavBlob pcm 24000 1 with
              | none =>
                  refine ⟨?_, ?_, ?_, ?_, ?_, ?_⟩ <;>
                    simp [handleProcessAudio, hf, hread, htr, hsp, hb, hdec,
                          hwav, catchFinally]
              | some wav =>
                  exfalso
                  simp only [runFails, hread, htr, hsp, if_neg hb, hdec, hwav,
                             Option.isNone_some] at hfail
                  exact Bool.false_ne_true hfail

/-- Witness for C3 (amended) on a run whose transcription call rejects. -/
theorem processAudio_failure_cleanup_witness :
    (((handleProcessAudio ⟨.ok ("d", "m"), .error "network down", .ok none⟩
        7 ⟨some 0, some 1, "", none, false, "", none⟩).1.error).isSome = true)
    ∧ (handleProcessAudio ⟨.ok ("d", "m"), .error "network down", .ok none⟩
        7 ⟨some 0, some 1, "", none, false, "", none⟩).1.isLoading = false
    ∧ (handleProcessAudio ⟨.ok ("d", "m"), .error "network down", .ok none⟩
        7 ⟨some 0, some 1, "", none, false, "", none⟩).1.progressMessage = ""
    ∧ (handleProcessAudio ⟨.ok ("d", "m"), .error "network down", .ok none⟩
        7 ⟨some 0, some 1, "", none, false, "", none⟩).1.outputAudioUrl
        = none :=
  (fun h => ⟨h.1, h.2.1, h.2.2.1, h.2.2.2.1⟩)
    (processAudio_failure_cleanup
      ⟨.ok ("d", "m"), .error "network down", .ok none⟩ 7
      ⟨some 0, some 1, "", none, false, "", none⟩ rfl (by decide))

/-- C7: the repository's base64 decoder is a left inverse of standard
RFC 4648 encoding with padding — decoding the encoding of any byte sequence
reproduces it exactly — and it fails on any input containing a character
outside the base64 alphabet (other than padding) and on any input whose
length is not a multiple of four (invalid padding length). -/
theorem decode_is_base64_inverse :
    (∀ B : List Nat, (∀ b ∈ B, b < 256) → decode (b64encode B) = some B)
    ∧ (∀ (s : List Char) (c : Char), c ∈ s → b64dec c = none → c ≠ '=' →
        decode s = none)
    ∧ (∀ s : List Char, s.length % 4 ≠ 0 → decode s = none) :=
  ⟨decode_b64encode, decode_invalid_char, decode_invalid_length⟩

/-- Witness for C7: round trip of the bytes `[1, 0, 2, 0]`, rejection of an
out-of-alphabet character, and rejection of an invalid padding length. -/
theorem decode_is_base64_inverse_witness :
    decode (b64encode [1, 0, 2, 0]) = some [1, 0, 2, 0]
    ∧ decode ['*', 'A', 'A', 'A'] = none
    ∧ decode ['A', 'B', 'C'] = none :=
  ⟨decode_is_base64_inverse.1 [1, 0, 2, 0] (by decide),
   decode_is_base64_inverse.2.1 ['*', 'A', 'A', 'A'] '*' (by decide)
     (by decide) (by decide),
   decode_is_base64_inverse.2.2 ['A', 'B', 'C'] (by decide)⟩

/-- C8 counterexample: with a credential present and a provider call that
succeeds but carries no text, `generateTranscriptFromAudio` does not fail —
it returns the absent text as a success — so the claim that an empty
provider response fails with a service error is false. -/
theorem transcript_empty_response_no_error :
    (generateTranscriptFromAudio ⟨some "key", .ok ⟨none⟩⟩).1 =
      .ok none := rfl

/-- C8 (amended): `generateTranscriptFromAudio` fails before any network
call when the credential is unset or empty, propagates a rejection of the
provider call as a failure, and otherwise returns `response.text` unchanged
— including when that text is absent; no empty- or malformed-response check
is performed. -/
theorem generateTranscript_behavior (env : GenAIEnv) :
    (env.apiKey.getD "" = "" →
      generateTranscriptFromAudio env =
        (.error "API_KEY environment variable not set", false))
    ∧ (∀ e, env.apiKey.getD "" ≠ "" → env.generateContentResult = .error e →
      generateTranscriptFromAudio env = (.error e, true))
    ∧ (∀ resp, env.apiKey.getD "" ≠ "" →
      env.generateContentResult = .ok resp →
      generateTranscriptFromAudio env = (.ok resp.text, true)) := by
  refine ⟨?_, ?_, ?_⟩
  · intro h
    simp [generateTranscriptFromAudio, getGenAI, h]
  · intro e hk hr
    simp [generateTranscriptFromAudio, getGenAI, hk, hr]
  · intro resp hk hr
    simp [generateTranscriptFromAudio, getGenAI, hk, hr]

/-- Witness for C8 (amended): missing credential fails without a call,
a rejected provider call propagates its message, and a successful call
returns its text. -/
theorem generateTranscript_behavior_witness :
    generateTranscriptFromAudio ⟨none, .ok ⟨some "t"⟩⟩ =
      (.error "API_KEY environment variable not set", false)
    ∧ generateTranscriptFromAudio ⟨some "k", .error "network down"⟩ =
      (.error "network down", true)
    ∧ generateTranscriptFromAudio ⟨some "k", .ok ⟨some "t"⟩⟩ =
      (.ok (some "t"), true) :=
  ⟨(generateTranscript_behavior ⟨none, .ok ⟨some "t"⟩⟩).1 rfl,
   (generateTranscript_behavior ⟨some "k", .error "network down"⟩).2.1
     "network down" (by decide) rfl,
   (generateTranscript_behavior ⟨some "k", .ok ⟨some "t"⟩⟩).2.2
     ⟨some "t"⟩ (by decide) rfl⟩
